import Mathlib

/-!
# PYJ-POS: order lifecycle and sync engine, shallow embedding

This file embeds the core of the PYJ-POS point-of-sale application in Lean 4
and settles a list of claims about it.  The embedded code is:

* `handleAddSale` (the `createSale` operation of the spec), the straight-line
  sequence: read the current maximum `order_number` from the sales table,
  insert a sales row, insert the sale-item rows, and issue one stock update
  per non-manual item, computed from the client's in-memory product list;
* `handleResetHistory` (the `resetHistory` operation): bulk delete of
  sale-item rows and sales rows;
* `handleUpdateSaleStatus` (the `completeSale` operation): set the status of
  a sales row to `Completed` by id;
* the initial snapshot fetch of sales (`fetchInitialData`), which filters out
  `Draft` rows and assembles each sale with its item rows;
* the realtime change-feed handlers for `sales` INSERT and UPDATE events.

The persistent store is modelled as explicit lists of rows (`Db`); every
asynchronous store call is modelled as a pure state transformation, with
store-side failures injected through `CreateEnv` flags, matching the error
branches of the source.  JavaScript numbers are modelled as integers: every property settled here is ring-generic (sums, differences, products and equalities), so nothing hinges on fractional values.
-/

namespace PyjPos

/-- Sale status, from `types.ts` (the `'Draft'` value appears in the variant
with a Draft state and in the snapshot filter `.neq('status', 'Draft')`). -/
inductive SaleStatus
  | Draft
  | Pending
  | Completed
deriving DecidableEq

/-- `SaleItem` from `types.ts`: snapshot of a product at time of sale. -/
structure SaleItem where
  id : String
  name : String
  price : Int
  quantity : Int
deriving DecidableEq

/-- `Product` from `types.ts` (with the joined category name flattened to the
optional `categoriesName`). -/
structure Product where
  id : String
  name : String
  price : Int
  stock : Int
  category_id : Option String
  categoriesName : Option String
deriving DecidableEq

/-- `CartItem` from `types.ts`: a `Product` together with a quantity. -/
structure CartItem where
  id : String
  name : String
  price : Int
  stock : Int
  category_id : Option String
  categoriesName : Option String
  quantity : Int
deriving DecidableEq

/-- `Sale` from `types.ts`, the client-side assembled record.  The timestamp
is modelled as epoch milliseconds. -/
structure Sale where
  id : String
  timestamp : Int
  items : List SaleItem
  total : Int
  paymentMethod : String
  order_number : Nat
  status : SaleStatus
  admin_notes : Option String
  user_notes : Option String
deriving DecidableEq

/-- A row of the `sales` table. -/
structure SaleRow where
  id : String
  timestamp : Int
  total : Int
  paymentMethod : String
  order_number : Nat
  status : SaleStatus
  admin_notes : Option String
  user_notes : Option String
deriving DecidableEq

/-- A row of the `sale_items` table. -/
structure SaleItemRow where
  sale_id : String
  product_id : String
  name : String
  price : Int
  quantity : Int
deriving DecidableEq

/-- The persistent store: the three tables the sale lifecycle touches. -/
structure Db where
  sales : List SaleRow
  sale_items : List SaleItemRow
  products : List Product
deriving DecidableEq

/-- The synthetic id marker of manual sale items: `manual-${Date.now()}`. -/
def manualMarker : String := "manual-"

/-- The item name used by `handleConfirmManualSale` and tested by
`handleAddSale` to decide the created status. -/
def manualSaleName : String := "Manual Sale"

/-- The dummy uuid used in the bulk-delete filters of `handleResetHistory`. -/
def zeroUuid : String := "00000000-0000-0000-0000-000000000000"

/-- The maximum `order_number` over a list of sales rows, 0 for the empty
list.  This is the value returned by the query
`.select('order_number').order('order_number', { ascending: false }).limit(1)`
on a non-empty table. -/
def maxOrderNumber (sales : List SaleRow) : Nat :=
  sales.foldl (fun m s => max m s.order_number) 0

/-- The read of the last order number in `handleAddSale`: `none` models the
PGRST116 "no rows" outcome on an empty table, `some` the row with the
greatest `order_number`. -/
def readLastOrderNumber (sales : List SaleRow) : Option Nat :=
  if sales.isEmpty then none else some (maxOrderNumber sales)

/-- JavaScript `lastSale?.order_number || 0` for a natural-valued field:
`undefined` and `0` are both falsy and yield 0. -/
def jsOrZero : Option Nat → Nat
  | none => 0
  | some n => n

/-- The status chosen at insert time:
`saleData.items[0]?.name === 'Manual Sale' ? 'Completed' : 'Pending'`. -/
def createStatus (items : List SaleItem) : SaleStatus :=
  match items.head? with
  | some item => if item.name = manualSaleName then SaleStatus.Completed else SaleStatus.Pending
  | none => SaleStatus.Pending

/-- The argument record of `handleAddSale`. -/
structure SaleData where
  items : List SaleItem
  total : Int
  paymentMethod : String
  userNotes : Option String
deriving DecidableEq

/-- Environment of one `handleAddSale` run: store-side failure injections for
the two checked store calls, and the server-assigned id and timestamp of the
new row. -/
structure CreateEnv where
  maxReadError : Bool
  saleInsertError : Bool
  newSaleId : String
  newTimestamp : Int
deriving DecidableEq

/-- Observable actions of one `handleAddSale` run: how many times the max
order number was read, how many sales-row inserts were attempted, and the
list of `(product id, new stock)` update operations issued. -/
structure CreateTrace where
  maxReads : Nat
  insertAttempts : Nat
  stockWrites : List (String × Int)
deriving DecidableEq

/-- Result of `handleAddSale`: the two early-return error branches, or the
`Sale` value returned to the caller. -/
inductive CreateResult
  | fetchMaxFailed
  | insertFailed
  | ok (sale : Sale)
deriving DecidableEq

/-- The stock update operations of `handleAddSale`: for each item whose id
does not start with `manual-`, look the product up in the client's in-memory
product list and write `product.stock - item.quantity`, or `0` when the
product is not found. -/
def stockWrites (clientProducts : List Product) (items : List SaleItem) :
    List (String × Int) :=
  (items.filter (fun item => !(item.id.startsWith manualMarker))).map
    (fun item =>
      match clientProducts.find? (fun p => p.id == item.id) with
      | some product => (item.id, product.stock - item.quantity)
      | none => (item.id, 0))

/-- One store-side stock update:
`supabase.from('products').update({ stock: v }).eq('id', pid)`. -/
def applyStockWrite (ps : List Product) (w : String × Int) : List Product :=
  ps.map (fun p => if p.id = w.1 then { p with stock := w.2 } else p)

/-- All stock updates of one `handleAddSale` run, applied in order. -/
def applyStockWrites (ws : List (String × Int)) (ps : List Product) : List Product :=
  ws.foldl applyStockWrite ps

/-- `handleAddSale` from `App.tsx` (the `createSale` operation): read the
maximum order number (early return on a hard read error), compute
`nextOrderNumber = (lastSale?.order_number || 0) + 1`, insert the sales row
(early return on insert failure), insert the sale-item rows, then issue the
stock updates.  Returns the result handed to the caller, the store state
after the run, and the trace of store operations. -/
def handleAddSale (env : CreateEnv) (clientProducts : List Product) (db : Db)
    (saleData : SaleData) : CreateResult × Db × CreateTrace :=
  if env.maxReadError then
    (CreateResult.fetchMaxFailed, db, ⟨1, 0, []⟩)
  else
    let nextOrderNumber : Nat := jsOrZero (readLastOrderNumber db.sales) + 1
    if env.saleInsertError then
      (CreateResult.insertFailed, db, ⟨1, 1, []⟩)
    else
      let newSaleRow : SaleRow :=
        { id := env.newSaleId
          timestamp := env.newTimestamp
          total := saleData.total
          paymentMethod := saleData.paymentMethod
          order_number := nextOrderNumber
          status := createStatus saleData.items
          admin_notes := none
          user_notes := saleData.userNotes }
      let saleItemsToInsert : List SaleItemRow := saleData.items.map (fun item =>
        { sale_id := env.newSaleId
          product_id := item.id
          name := item.name
          price := item.price
          quantity := item.quantity })
      let writes := stockWrites clientProducts saleData.items
      let db1 : Db :=
        { sales := db.sales ++ [newSaleRow]
          sale_items := db.sale_items ++ saleItemsToInsert
          products := applyStockWrites writes db.products }
      let returnedSale : Sale :=
        { id := newSaleRow.id
          timestamp := newSaleRow.timestamp
          items := saleData.items
          total := newSaleRow.total
          paymentMethod := newSaleRow.paymentMethod
          order_number := newSaleRow.order_number
          status := newSaleRow.status
          admin_notes := none
          user_notes := saleData.userNotes }
      (CreateResult.ok returnedSale, db1, ⟨1, 1, writes⟩)

/-- `handleResetHistory` from `App.tsx`: delete every `sale_items` row whose
`sale_id` differs from the dummy uuid, then every `sales` row whose `id`
differs from it. -/
def handleResetHistory (db : Db) : Db :=
  { db with
    sale_items := db.sale_items.filter (fun r => r.sale_id == zeroUuid)
    sales := db.sales.filter (fun r => r.id == zeroUuid) }

/-- The order number of the sale created by a `handleAddSale` run, when the
run succeeded. -/
def createdOrderNumber (r : CreateResult × Db × CreateTrace) : Option Nat :=
  match r.1 with
  | CreateResult.ok s => some s.order_number
  | _ => none

/-- The status of the sale created by a `handleAddSale` run, when the run
succeeded. -/
def createdStatus (r : CreateResult × Db × CreateTrace) : Option SaleStatus :=
  match r.1 with
  | CreateResult.ok s => some s.status
  | _ => none

/-- `handleUpdateSaleStatus` from `App.tsx` (the `completeSale` operation) as
its effect on the `sales` table:
`supabase.from('sales').update({ status: 'Completed' }).eq('id', saleId)`. -/
def handleUpdateSaleStatus (saleId : String) (sales : List SaleRow) : List SaleRow :=
  sales.map (fun s => if s.id = saleId then { s with status := SaleStatus.Completed } else s)

/-- The sum over sale items of `price * quantity`, as the cart total is
accumulated in `PosView.tsx`: `reduce((sum, item) => sum + item.price * item.quantity, 0)`. -/
def itemsSum (items : List SaleItem) : Int :=
  items.foldl (fun sum item => sum + item.price * item.quantity) 0

/-- The cart total computed in `handleConfirmPayment`:
`cartItems.reduce((sum, item) => sum + item.price * item.quantity, 0)`. -/
def cartTotal (cart : List CartItem) : Int :=
  cart.foldl (fun sum item => sum + item.price * item.quantity) 0

/-- The field strip in `handleConfirmPayment`:
`({ stock, categories, category_id, ...item }) => item`. -/
def stripCartItem (c : CartItem) : SaleItem :=
  { id := c.id, name := c.name, price := c.price, quantity := c.quantity }

/-- The `saleData` built by `handleConfirmPayment` in `PosView.tsx` for a
catalog checkout. -/
def checkoutSaleData (cart : List CartItem) (userNotes : String) (pm : String) :
    SaleData :=
  { items := cart.map stripCartItem
    total := cartTotal cart
    paymentMethod := pm
    userNotes := some userNotes }

/-- The `saleData` built by `handleConfirmManualSale` in `PosView.tsx`: a
single item with synthetic id `manual-${Date.now()}`, name `'Manual Sale'`,
price = amount, quantity 1, and total = amount. -/
def manualSaleData (now : Nat) (amount : Int) (pm : String) : SaleData :=
  { items := [{ id := manualMarker ++ toString now
                name := manualSaleName
                price := amount
                quantity := 1 }]
    total := amount
    paymentMethod := pm
    userNotes := none }

/-- Insertion into a list kept sorted by descending timestamp. -/
def insertDescBy {α : Type} (key : α → Int) (x : α) : List α → List α
  | [] => [x]
  | y :: ys => if key y ≤ key x then x :: y :: ys else y :: insertDescBy key x ys

/-- Sort by descending timestamp, modelling the store's
`.order('timestamp', { ascending: false })` and the client-side
`sort((a, b) => new Date(b.timestamp).getTime() - new Date(a.timestamp).getTime())`. -/
def sortDescBy {α : Type} (key : α → Int) (l : List α) : List α :=
  l.foldr (insertDescBy key) []

/-- The assembly of one client-side `Sale` from a sales row and the
`sale_items` table, as in `fetchInitialData`: the items are the rows with a
matching `sale_id`, mapped to `{ id: item.product_id, name, price, quantity }`. -/
def assembleSale (itemRows : List SaleItemRow) (row : SaleRow) : Sale :=
  { id := row.id
    timestamp := row.timestamp
    items := (itemRows.filter (fun r => r.sale_id == row.id)).map
      (fun r => { id := r.product_id, name := r.name, price := r.price, quantity := r.quantity })
    total := row.total
    paymentMethod := row.paymentMethod
    order_number := row.order_number
    status := row.status
    admin_notes := row.admin_notes
    user_notes := row.user_notes }

/-- The sales list produced by the initial snapshot fetch in
`fetchInitialData`:
`supabase.from('sales').select('*').neq('status', 'Draft').order('timestamp', { ascending: false })`,
then each sale assembled with its items. -/
def fetchInitialSales (db : Db) : List Sale :=
  (sortDescBy SaleRow.timestamp
      (db.sales.filter (fun r => decide (r.status ≠ SaleStatus.Draft)))).map
    (assembleSale db.sale_items)

/-- The realtime handler for a `sales` INSERT event: fetch the new sale's
item rows, assemble the sale, and prepend it to the (re-sorted) previous
list — `setSales(prev => [newSaleWithItems, ...prev.sort(...)])`.  The
`fetchItemsFor` argument models the `sale_items` query by `sale_id`. -/
def salesInsertHandler (fetchItemsFor : String → List SaleItemRow)
    (newRow : SaleRow) (prev : List Sale) : List Sale :=
  let newSaleWithItems : Sale :=
    { id := newRow.id
      timestamp := newRow.timestamp
      items := (fetchItemsFor newRow.id).map
        (fun r => { id := r.product_id, name := r.name, price := r.price, quantity := r.quantity })
      total := newRow.total
      paymentMethod := newRow.paymentMethod
      order_number := newRow.order_number
      status := newRow.status
      admin_notes := newRow.admin_notes
      user_notes := newRow.user_notes }
  newSaleWithItems :: sortDescBy Sale.timestamp prev

/-- The realtime handler for a `sales` UPDATE event: patch the matching
in-memory record's `status` and `admin_notes` in place, leaving every other
record unchanged. -/
def salesUpdateHandler (updatedRow : SaleRow) (prev : List Sale) : List Sale :=
  prev.map (fun sale =>
    if sale.id = updatedRow.id then
      { sale with status := updatedRow.status, admin_notes := updatedRow.admin_notes }
    else sale)

/-! ## Sample values

Concrete inputs used to evaluate the embedded operations. -/

/-- A run environment in which both checked store calls succeed. -/
def envOk : CreateEnv :=
  { maxReadError := false, saleInsertError := false, newSaleId := "s1", newTimestamp := 100 }

/-- A run environment in which the max-order-number read fails hard. -/
def envReadFail : CreateEnv :=
  { maxReadError := true, saleInsertError := false, newSaleId := "s1", newTimestamp := 100 }

/-- A run environment in which the sales-row insert is rejected, as on an
order-number uniqueness violation. -/
def envInsertFail : CreateEnv :=
  { maxReadError := false, saleInsertError := true, newSaleId := "s1", newTimestamp := 100 }

/-- A store with no rows at all. -/
def emptyDb : Db := { sales := [], sale_items := [], products := [] }

/-- A catalog product. -/
def cookieProduct : Product :=
  { id := "p1", name := "Cookie", price := 3, stock := 5,
    category_id := none, categoriesName := none }

/-- A one-line cart holding two units of the catalog product. -/
def cookieCart : List CartItem :=
  [{ id := "p1", name := "Cookie", price := 3, stock := 5,
     category_id := none, categoriesName := none, quantity := 2 }]

/-- An existing Pending sales row with order number 41. -/
def pendingRow : SaleRow :=
  { id := "a1", timestamp := 10, total := 6, paymentMethod := "Cash",
    order_number := 41, status := SaleStatus.Pending, admin_notes := none, user_notes := none }

/-- A store holding one sale, its item row, and one product. -/
def sampleDb : Db :=
  { sales := [pendingRow]
    sale_items := [{ sale_id := "a1", product_id := "p1", name := "Cookie", price := 3, quantity := 2 }]
    products := [cookieProduct] }

/-- The sale data a catalog checkout of `cookieCart` hands to `handleAddSale`. -/
def sampleSaleData : SaleData := checkoutSaleData cookieCart "" "Cash"

/-- A cart whose first item is a catalog product that happens to be named
"Manual Sale"; its id carries no `manual-` marker. -/
def trickCart : List CartItem :=
  [{ id := "p1", name := "Manual Sale", price := 5, stock := 3,
     category_id := none, categoriesName := none, quantity := 1 }]

/-- An item-rows query that finds no rows. -/
def noItemsFeed : String → List SaleItemRow := fun _ => []

/-- A sales row with status `Draft`. -/
def draftRow : SaleRow :=
  { id := "d1", timestamp := 5, total := 0, paymentMethod := "Cash",
    order_number := 7, status := SaleStatus.Draft, admin_notes := none, user_notes := none }

/-- The client-side sale assembled from `pendingRow` and the item rows of
`sampleDb`. -/
def sampleVisibleSale : Sale := assembleSale sampleDb.sale_items pendingRow

/-- The sale a successful `handleAddSale` run under `envOk` returns for a
checkout of `cookieCart` on the empty store. -/
def checkoutSaleSample : Sale :=
  { id := "s1", timestamp := 100,
    items := [{ id := "p1", name := "Cookie", price := 3, quantity := 2 }],
    total := 6, paymentMethod := "Cash", order_number := 1,
    status := SaleStatus.Pending, admin_notes := none, user_notes := some "" }

/-! ## Helper lemmas -/

/-- The `(lastSale?.order_number || 0)` read always evaluates to the maximum
order number of the table, with 0 on an empty table. -/
theorem jsOrZero_readLast (sales : List SaleRow) :
    jsOrZero (readLastOrderNumber sales) = maxOrderNumber sales := by
  cases sales with
  | nil => rfl
  | cons a l => rfl

/-- Stripping the cart fields preserves price and quantity, so the item sum
of the stripped items equals the cart total. -/
theorem itemsSum_strip (cart : List CartItem) :
    itemsSum (cart.map stripCartItem) = cartTotal cart := by
  unfold itemsSum cartTotal
  rw [List.foldl_map]
  rfl

/-- A non-manual item whose product is found in the client list contributes
the write `(item.id, product.stock - item.quantity)`. -/
theorem stockWrites_mem_of_find (cp : List Product) (items : List SaleItem)
    (item : SaleItem) (product : Product)
    (hmem : item ∈ items)
    (hman : item.id.startsWith manualMarker = false)
    (hfind : cp.find? (fun p => p.id == item.id) = some product) :
    (item.id, product.stock - item.quantity) ∈ stockWrites cp items := by
  unfold stockWrites
  have hfil : item ∈ items.filter (fun i => !(i.id.startsWith manualMarker)) :=
    List.mem_filter.mpr ⟨hmem, by simp [hman]⟩
  have hmap := List.mem_map_of_mem
    (f := fun i => match cp.find? (fun p => p.id == i.id) with
      | some product => (i.id, product.stock - i.quantity)
      | none => (i.id, 0)) hfil
  simpa [hfind] using hmap

/-- A non-manual item whose product is not found in the client list
contributes the write `(item.id, 0)`. -/
theorem stockWrites_mem_of_not_found (cp : List Product) (items : List SaleItem)
    (item : SaleItem)
    (hmem : item ∈ items)
    (hman : item.id.startsWith manualMarker = false)
    (hfind : cp.find? (fun p => p.id == item.id) = none) :
    (item.id, (0 : Int)) ∈ stockWrites cp items := by
  unfold stockWrites
  have hfil : item ∈ items.filter (fun i => !(i.id.startsWith manualMarker)) :=
    List.mem_filter.mpr ⟨hmem, by simp [hman]⟩
  have hmap := List.mem_map_of_mem
    (f := fun i => match cp.find? (fun p => p.id == i.id) with
      | some product => (i.id, product.stock - i.quantity)
      | none => (i.id, 0)) hfil
  simpa [hfind] using hmap

/-- Every issued stock write targets an id without the `manual-` marker. -/
theorem stockWrites_not_manual (cp : List Product) (items : List SaleItem)
    (w : String × Int) (hw : w ∈ stockWrites cp items) :
    w.1.startsWith manualMarker = false := by
  unfold stockWrites at hw
  obtain ⟨item, hitem, heq⟩ := List.mem_map.mp hw
  have hfilt := (List.mem_filter.mp hitem).2
  have hman : item.id.startsWith manualMarker = false := by simpa using hfilt
  cases hfind : cp.find? (fun p => p.id == item.id) with
  | some product => rw [hfind] at heq; rw [← heq]; exact hman
  | none => rw [hfind] at heq; rw [← heq]; exact hman

/-- Membership in a descending insertion. -/
theorem mem_insertDescBy {α : Type} (key : α → Int) (x a : α) (l : List α) :
    a ∈ insertDescBy key x l ↔ a = x ∨ a ∈ l := by
  induction l with
  | nil => simp [insertDescBy]
  | cons y ys ih =>
    unfold insertDescBy
    by_cases h : key y ≤ key x
    · simp [h]
    · simp only [if_neg h, List.mem_cons, ih]
      tauto

/-- Sorting by descending key neither adds nor drops elements. -/
theorem mem_sortDescBy {α : Type} (key : α → Int) (a : α) (l : List α) :
    a ∈ sortDescBy key l ↔ a ∈ l := by
  induction l with
  | nil => simp [sortDescBy]
  | cons y ys ih =>
    show a ∈ insertDescBy key y (sortDescBy key ys) ↔ _
    rw [mem_insertDescBy]
    simp [ih]

/-- A descending insertion grows the list by one. -/
theorem length_insertDescBy {α : Type} (key : α → Int) (x : α) (l : List α) :
    (insertDescBy key x l).length = l.length + 1 := by
  induction l with
  | nil => rfl
  | cons y ys ih =>
    unfold insertDescBy
    by_cases h : key y ≤ key x
    · simp [h]
    · simp [h, ih]

/-- Sorting by descending key preserves length. -/
theorem length_sortDescBy {α : Type} (key : α → Int) (l : List α) :
    (sortDescBy key l).length = l.length := by
  induction l with
  | nil => rfl
  | cons y ys ih =>
    show (insertDescBy key y (sortDescBy key ys)).length = _
    rw [length_insertDescBy, ih, List.length_cons]

/-! ## Claims -/

/-- C1: in a successful run, `handleAddSale` assigns the new sale the order
number `maxOrderNumber db.sales + 1` (with maximum 0 on an empty table), and
after `handleResetHistory` (on a store whose sales all carry real, non-dummy
uuids) the next `handleAddSale` assigns order number 1. -/
theorem createSale_order_number_max_plus_one
    (env : CreateEnv) (cp : List Product) (db : Db) (sd : SaleData)
    (h1 : env.maxReadError = false) (h2 : env.saleInsertError = false) :
    createdOrderNumber (handleAddSale env cp db sd) = some (maxOrderNumber db.sales + 1) ∧
    ((∀ r ∈ db.sales, r.id ≠ zeroUuid) →
      createdOrderNumber (handleAddSale env cp (handleResetHistory db) sd) = some 1) := by
  constructor
  · simp [handleAddSale, h1, h2, createdOrderNumber, jsOrZero_readLast]
  · intro hids
    have hfil : db.sales.filter (fun r => r.id == zeroUuid) = [] := by
      rw [List.filter_eq_nil_iff]
      intro r hr
      simpa using hids r hr
    simp [handleAddSale, h1, h2, createdOrderNumber, jsOrZero_readLast,
      handleResetHistory, hfil, maxOrderNumber]

theorem createSale_order_number_max_plus_one_witness :
    createdOrderNumber (handleAddSale envOk [] sampleDb sampleSaleData) = some 42 ∧
    createdOrderNumber (handleAddSale envOk [] (handleResetHistory sampleDb) sampleSaleData) =
      some 1 :=
  ⟨(createSale_order_number_max_plus_one envOk [] sampleDb sampleSaleData rfl rfl).1,
   (createSale_order_number_max_plus_one envOk [] sampleDb sampleSaleData rfl rfl).2
     (by decide)⟩

/-- C2, counterexample to the claim as stated: when the sales-row insert is
rejected, `handleAddSale` performs exactly one max-order-number read and
exactly one insert attempt before surfacing the failure, so it never re-reads
the maximum nor re-attempts the insert. -/
theorem createSale_retry_counterexample :
    (handleAddSale envInsertFail [] sampleDb sampleSaleData).1 = CreateResult.insertFailed ∧
    (handleAddSale envInsertFail [] sampleDb sampleSaleData).2.2.maxReads = 1 ∧
    (handleAddSale envInsertFail [] sampleDb sampleSaleData).2.2.insertAttempts = 1 ∧
    ¬2 ≤ (handleAddSale envInsertFail [] sampleDb sampleSaleData).2.2.insertAttempts := by
  decide

/-- C2, amended: when the sales-row insert is rejected, `handleAddSale` does
not retry at all — it surfaces the failure after exactly one max read and one
insert attempt, leaving the store unchanged (in particular it never succeeds
with a duplicate order number). -/
theorem createSale_no_retry_on_insert_failure
    (env : CreateEnv) (cp : List Product) (db : Db) (sd : SaleData)
    (h1 : env.maxReadError = false) (h2 : env.saleInsertError = true) :
    handleAddSale env cp db sd =
      (CreateResult.insertFailed, db, ⟨1, 1, []⟩) := by
  simp [handleAddSale, h1, h2]

theorem createSale_no_retry_on_insert_failure_witness :
    handleAddSale envInsertFail [] sampleDb sampleSaleData =
      (CreateResult.insertFailed, sampleDb, ⟨1, 1, []⟩) :=
  createSale_no_retry_on_insert_failure envInsertFail [] sampleDb sampleSaleData rfl rfl

/-- C4: the `createSale` sequence halts at the first failed step: a failed
max-order-number read returns before any insert (store unchanged, zero insert
attempts, no stock writes), and a failed sales-row insert returns before the
sale-items insert and the stock updates (store unchanged, no stock writes). -/
theorem createSale_halts_on_first_failure
    (env : CreateEnv) (cp : List Product) (db : Db) (sd : SaleData) :
    (env.maxReadError = true →
      handleAddSale env cp db sd = (CreateResult.fetchMaxFailed, db, ⟨1, 0, []⟩)) ∧
    (env.maxReadError = false → env.saleInsertError = true →
      handleAddSale env cp db sd = (CreateResult.insertFailed, db, ⟨1, 1, []⟩)) := by
  constructor
  · intro h
    simp [handleAddSale, h]
  · intro h1 h2
    simp [handleAddSale, h1, h2]

theorem createSale_halts_on_first_failure_witness :
    handleAddSale envReadFail [] sampleDb sampleSaleData =
      (CreateResult.fetchMaxFailed, sampleDb, ⟨1, 0, []⟩) ∧
    handleAddSale envInsertFail [cookieProduct] sampleDb sampleSaleData =
      (CreateResult.insertFailed, sampleDb, ⟨1, 1, []⟩) :=
  ⟨(createSale_halts_on_first_failure envReadFail [] sampleDb sampleSaleData).1 rfl,
   (createSale_halts_on_first_failure envInsertFail [cookieProduct] sampleDb sampleSaleData).2
     rfl rfl⟩

/-- C3: every sale created through the two `createSale` entry points —
catalog checkout (`handleConfirmPayment`) and manual entry
(`handleConfirmManualSale`) — carries a total equal to the sum over its items
of price times quantity. -/
theorem createSale_total_eq_itemsSum
    (env : CreateEnv) (cp : List Product) (db : Db) (cart : List CartItem)
    (notes pm : String) (now : Nat) (amount : Int) (s : Sale) :
    ((handleAddSale env cp db (checkoutSaleData cart notes pm)).1 = CreateResult.ok s →
      s.total = itemsSum s.items) ∧
    ((handleAddSale env cp db (manualSaleData now amount pm)).1 = CreateResult.ok s →
      s.total = itemsSum s.items) := by
  constructor
  · intro h
    by_cases h1 : env.maxReadError
    · simp [handleAddSale, h1] at h
    · by_cases h2 : env.saleInsertError
      · simp [handleAddSale, h1, h2] at h
      · simp [handleAddSale, h1, h2] at h
        rw [← h]
        simpa [checkoutSaleData] using (itemsSum_strip cart).symm
  · intro h
    by_cases h1 : env.maxReadError
    · simp [handleAddSale, h1] at h
    · by_cases h2 : env.saleInsertError
      · simp [handleAddSale, h1, h2] at h
      · simp [handleAddSale, h1, h2] at h
        rw [← h]
        simp [manualSaleData, itemsSum]

theorem createSale_total_eq_itemsSum_witness :
    checkoutSaleSample.total = itemsSum checkoutSaleSample.items :=
  (createSale_total_eq_itemsSum envOk [] emptyDb cookieCart "" "Cash" 0 5
    checkoutSaleSample).1 (by decide)

/-- C5: in a successful `handleAddSale` run, every non-manual item whose
product id is found in the client's in-memory product list produces a stock
update writing `product.stock - item.quantity`, and no issued stock update
targets an id carrying the `manual-` marker. -/
theorem createSale_stock_decrement
    (env : CreateEnv) (cp : List Product) (db : Db) (sd : SaleData)
    (h1 : env.maxReadError = false) (h2 : env.saleInsertError = false) :
    (∀ item ∈ sd.items, ∀ product : Product,
      item.id.startsWith manualMarker = false →
      cp.find? (fun p => p.id == item.id) = some product →
      (item.id, product.stock - item.quantity) ∈
        (handleAddSale env cp db sd).2.2.stockWrites) ∧
    (∀ w ∈ (handleAddSale env cp db sd).2.2.stockWrites,
      w.1.startsWith manualMarker = false) := by
  have htr : (handleAddSale env cp db sd).2.2.stockWrites = stockWrites cp sd.items := by
    simp [handleAddSale, h1, h2]
  constructor
  · intro item hmem product hman hfind
    rw [htr]
    exact stockWrites_mem_of_find cp sd.items item product hmem hman hfind
  · intro w hw
    rw [htr] at hw
    exact stockWrites_not_manual cp sd.items w hw

theorem createSale_stock_decrement_witness :
    ("p1", cookieProduct.stock - 2) ∈
      (handleAddSale envOk [cookieProduct] emptyDb sampleSaleData).2.2.stockWrites :=
  (createSale_stock_decrement envOk [cookieProduct] emptyDb sampleSaleData rfl rfl).1
    { id := "p1", name := "Cookie", price := 3, quantity := 2 } (by decide)
    cookieProduct (by decide) (by decide)

/-- C10: in a successful `handleAddSale` run, a non-manual item whose product
id is absent from the client's in-memory product list produces a stock update
writing 0 for that id, whatever the store's products hold. -/
theorem createSale_unknown_product_writes_zero
    (env : CreateEnv) (cp : List Product) (db : Db) (sd : SaleData) (item : SaleItem)
    (h1 : env.maxReadError = false) (h2 : env.saleInsertError = false)
    (hmem : item ∈ sd.items)
    (hman : item.id.startsWith manualMarker = false)
    (hfind : cp.find? (fun p => p.id == item.id) = none) :
    (item.id, (0 : Int)) ∈ (handleAddSale env cp db sd).2.2.stockWrites := by
  have htr : (handleAddSale env cp db sd).2.2.stockWrites = stockWrites cp sd.items := by
    simp [handleAddSale, h1, h2]
  rw [htr]
  exact stockWrites_mem_of_not_found cp sd.items item hmem hman hfind

theorem createSale_unknown_product_writes_zero_witness :
    ("p1", (0 : Int)) ∈
      (handleAddSale envOk [] sampleDb sampleSaleData).2.2.stockWrites :=
  createSale_unknown_product_writes_zero envOk [] sampleDb sampleSaleData
    { id := "p1", name := "Cookie", price := 3, quantity := 2 }
    rfl rfl (by decide) (by decide) (by decide)

/-- C6, counterexample to the claim as stated: a catalog checkout whose first
cart item is a product named "Manual Sale" (its id `p1` carries no `manual-`
marker) is created with status `Completed`, not `Pending` — the code
discriminates on the first item name, not on the synthetic id. -/
theorem catalog_sale_pending_counterexample :
    trickCart.all (fun c => !(c.id.startsWith manualMarker)) = true ∧
    createdStatus (handleAddSale envOk [] emptyDb (checkoutSaleData trickCart "" "Cash")) =
      some SaleStatus.Completed ∧
    SaleStatus.Completed ≠ SaleStatus.Pending := by
  decide

/-- C6, amended: `handleAddSale` creates the sale `Completed` exactly when the
first item is named "Manual Sale", and `Pending` otherwise; every sale from
the manual entry path (`handleConfirmManualSale`) carries that name and so is
`Completed`, while a catalog checkout whose first cart item is not named
"Manual Sale" is created `Pending`. -/
theorem createSale_status_by_first_item_name
    (env : CreateEnv) (cp : List Product) (db : Db)
    (now : Nat) (amount : Int) (pm notes : String) (cart : List CartItem)
    (h1 : env.maxReadError = false) (h2 : env.saleInsertError = false) :
    createdStatus (handleAddSale env cp db (manualSaleData now amount pm)) =
      some SaleStatus.Completed ∧
    ((∀ c ∈ cart.head?, c.name ≠ manualSaleName) →
      createdStatus (handleAddSale env cp db (checkoutSaleData cart notes pm)) =
        some SaleStatus.Pending) := by
  constructor
  · simp [handleAddSale, h1, h2, createdStatus, createStatus, manualSaleData]
  · intro hname
    cases cart with
    | nil =>
      simp [handleAddSale, h1, h2, createdStatus, createStatus, checkoutSaleData,
        cartTotal, itemsSum]
    | cons c cs =>
      have hc : c.name ≠ manualSaleName := hname c (by simp)
      simp [handleAddSale, h1, h2, createdStatus, createStatus, checkoutSaleData,
        stripCartItem, hc]

theorem createSale_status_by_first_item_name_witness :
    createdStatus (handleAddSale envOk [] emptyDb (manualSaleData 0 5 "Cash")) =
      some SaleStatus.Completed ∧
    createdStatus (handleAddSale envOk [] emptyDb (checkoutSaleData cookieCart "" "Cash")) =
      some SaleStatus.Pending :=
  ⟨(createSale_status_by_first_item_name envOk [] emptyDb 0 5 "Cash" "" cookieCart rfl rfl).1,
   (createSale_status_by_first_item_name envOk [] emptyDb 0 5 "Cash" "" cookieCart rfl rfl).2
     (by decide)⟩

/-- C7, counterexample to the claim as stated: a `sales` INSERT change-feed
event carrying a Draft sale is prepended to the in-memory list as-is, so the
Draft sale does appear in the list delivered to the orders-board, history and
dashboard consumers. -/
theorem draft_visible_via_insert_event_counterexample :
    ((salesInsertHandler noItemsFeed draftRow []).map Sale.status) = [SaleStatus.Draft] ∧
    SaleStatus.Draft ≠ SaleStatus.Pending ∧ SaleStatus.Draft ≠ SaleStatus.Completed := by
  decide

/-- C7, amended: a Draft sale never appears in the list produced by the
initial snapshot fetch, which filters on status ≠ Draft; the INSERT
change-feed handler, by contrast, prepends the incoming sale whatever its
status is. -/
theorem draft_excluded_from_snapshot_only
    (db : Db) (s : Sale) (f : String → List SaleItemRow) (row : SaleRow)
    (prev : List Sale) :
    (s ∈ fetchInitialSales db → s.status ≠ SaleStatus.Draft) ∧
    ((salesInsertHandler f row prev).map Sale.status).head? = some row.status := by
  constructor
  · intro hmem
    unfold fetchInitialSales at hmem
    obtain ⟨r, hr, hs⟩ := List.mem_map.mp hmem
    rw [mem_sortDescBy] at hr
    have hne : r.status ≠ SaleStatus.Draft := by
      simpa using (List.mem_filter.mp hr).2
    rw [← hs]
    exact hne
  · simp [salesInsertHandler]

theorem draft_excluded_from_snapshot_only_witness :
    sampleVisibleSale ∈ fetchInitialSales sampleDb ∧
    sampleVisibleSale.status ≠ SaleStatus.Draft :=
  ⟨by decide,
   (draft_excluded_from_snapshot_only sampleDb sampleVisibleSale noItemsFeed pendingRow []).1
     (by decide)⟩

/-- C8, counterexample to the claim as stated: delivering the same `sales`
INSERT event twice does not leave the in-memory list in the same state as
delivering it once — the handler prepends blindly, so the sale is duplicated. -/
theorem insert_handler_not_idempotent_counterexample :
    salesInsertHandler noItemsFeed pendingRow (salesInsertHandler noItemsFeed pendingRow []) ≠
      salesInsertHandler noItemsFeed pendingRow [] := by
  decide

/-- C8, amended: the `sales` UPDATE handler is idempotent (it patches by id,
so reapplying the same event changes nothing), but the INSERT handler is not:
reapplying the same INSERT event grows the list by one more entry each time. -/
theorem update_handler_idempotent_insert_handler_not
    (row : SaleRow) (prev : List Sale) (f : String → List SaleItemRow) :
    salesUpdateHandler row (salesUpdateHandler row prev) = salesUpdateHandler row prev ∧
    (salesInsertHandler f row (salesInsertHandler f row prev)).length = prev.length + 2 := by
  constructor
  · unfold salesUpdateHandler
    rw [List.map_map]
    apply List.map_congr_left
    intro s _
    by_cases h : s.id = row.id
    · simp [Function.comp, h]
    · simp [Function.comp, h]
  · unfold salesInsertHandler
    simp [length_sortDescBy]

/-- C9: `completeSale` is idempotent on the sales table — applying the status
update twice for the same id equals applying it once — and afterwards every
row with that id has status `Completed`. -/
theorem completeSale_idempotent (saleId : String) (sales : List SaleRow) :
    handleUpdateSaleStatus saleId (handleUpdateSaleStatus saleId sales) =
      handleUpdateSaleStatus saleId sales ∧
    (∀ s ∈ handleUpdateSaleStatus saleId sales, s.id = saleId →
      s.status = SaleStatus.Completed) := by
  constructor
  · unfold handleUpdateSaleStatus
    rw [List.map_map]
    apply List.map_congr_left
    intro s _
    by_cases h : s.id = saleId
    · simp [Function.comp, h]
    · simp [Function.comp, h]
  · intro s hs hid
    unfold handleUpdateSaleStatus at hs
    obtain ⟨a, ha, heq⟩ := List.mem_map.mp hs
    by_cases h : a.id = saleId
    · rw [if_pos h] at heq
      rw [← heq]
    · rw [if_neg h] at heq
      rw [← heq] at hid
      exact absurd hid h

theorem completeSale_idempotent_witness :
    handleUpdateSaleStatus "a1" (handleUpdateSaleStatus "a1" [pendingRow]) =
      handleUpdateSaleStatus "a1" [pendingRow] ∧
    ({ pendingRow with status := SaleStatus.Completed } : SaleRow).status =
      SaleStatus.Completed :=
  ⟨(completeSale_idempotent "a1" [pendingRow]).1,
   (completeSale_idempotent "a1" [pendingRow]).2
     { pendingRow with status := SaleStatus.Completed } (by decide) (by decide)⟩

end PyjPos
